import Mathlib

/-!
Verification of the workflow-coordination behaviours of the repository's
behavioral-pattern sources against their specification.

The embedding mirrors the TypeScript sources:

* `src/design-patterns/behavioral/command.ts` — `Invoker` with its optional
  `onStart` / `onFinish` commands and its `history` array
  (`doSomethingImportant`, `undo`);
* `src/design-patterns/structural/flyweight.ts` (observer section) —
  `ConcreteSubject` with its `observers` array (`attach`, `detach`, `notify`);
* `src/design-patterns/behavioral/state.ts` — `Context`/`State` and the
  `Document`/`DocumentState` machine (`transitionTo`, `changeState`, and the
  per-state `publish`/`review`/`reject` handlers);
* `src/unnamed/part_002` — the mediator demo (`ChatRoom.register`).

TypeScript exceptions are modelled as an explicit `Option String` error
channel (`none` = the call returned normally, `some e` = the raw thrown
value `e` propagated to the caller).  Fallible user-supplied actions
(command `execute`/`undo` bodies, observer `update` bodies) are modelled by
their outcome, an `Except String Unit`.
-/

deriving instance DecidableEq for Except

/-- Propagation of a fallible action's outcome on the exception channel:
`.ok` means the call returned, `.error e` means `e` was thrown. -/
def raised : Except String Unit → Option String
  | .ok _ => none
  | .error e => some e

/-! ## Command pattern (`command.ts`) -/

/-- A `Command` object as the `Invoker` sees it: an identifier standing for
the object's reference, and the outcomes of its `execute()` and `undo()`
bodies. -/
structure Command where
  cid : Nat
  execResult : Except String Unit
  undoResult : Except String Unit
deriving DecidableEq

/-- The `Invoker`'s instance fields: the two optional commands and the
`history` array (`history.push` appends at the end, `history.pop` removes
from the end). -/
structure Invoker where
  onStart : Option Command
  onFinish : Option Command
  history : List Command
deriving DecidableEq

/-- One `if (slot) { slot.execute(); this.history.push(slot); }` block of
`Invoker.doSomethingImportant`: the command is pushed only after `execute()`
returns; if `execute()` throws, the push is skipped and the thrown value
propagates. -/
def applySlot (inv : Invoker) (slot : Option Command) : Invoker × Option String :=
  match slot with
  | none => (inv, none)
  | some c =>
    match c.execResult with
    | .ok _ => ({ inv with history := inv.history ++ [c] }, none)
    | .error e => (inv, some e)

/-- `Invoker.doSomethingImportant`: runs the `onStart` block, then the
`onFinish` block; a thrown exception aborts the method (the later block does
not run) while mutations already made to `history` remain. -/
def doSomethingImportant (inv : Invoker) : Invoker × Option String :=
  match applySlot inv inv.onStart with
  | (inv1, some e) => (inv1, some e)
  | (inv1, none) => applySlot inv1 inv1.onFinish

/-- `Invoker.undo`: `history.pop()` removes and returns the last element;
when one exists its `undo()` body runs (a throw propagates raw; the command
stays popped), otherwise the method only logs and returns normally.  The
result is the new invoker state, the command whose inverse was invoked (if
any), and the propagated error (if any). -/
def undo (inv : Invoker) : Invoker × Option Command × Option String :=
  match inv.history.getLast? with
  | none => (inv, none, none)
  | some c =>
    ({ inv with history := inv.history.dropLast }, some c, raised c.undoResult)

/-! ## Observer pattern (`flyweight.ts`, observer section) -/

/-- An `Observer` object as `ConcreteSubject` sees it: `oid` stands for the
object's reference (each object has its own), `result` is the outcome of its
`update()` body when invoked. -/
structure Observer where
  oid : Nat
  result : Except String Unit
deriving DecidableEq

/-- `ConcreteSubject.attach`: `observers.includes(observer)` checks object
identity; an already-attached observer is left alone (only a debug log),
otherwise the observer is pushed at the end of the array. -/
def attachO (obs : List Observer) (o : Observer) : List Observer :=
  if obs.any (fun p => p.oid = o.oid) then obs else obs ++ [o]

/-- `ConcreteSubject.detach`: `indexOf` finds the first identity match and
`splice` removes that single entry; a missing observer only logs an error
and leaves the array unchanged. -/
def detachO (obs : List Observer) (i : Nat) : List Observer :=
  obs.eraseP (fun p => p.oid = i)

/-- `ConcreteSubject.notify`: `for (const observer of this.observers)
observer.update(this)` — no `try`/`catch`, so the first `update()` that
throws aborts the loop and the thrown value propagates out of `notify`.
Returns the identities whose `update()` was invoked (in iteration order)
and the propagated error, if any. -/
def notifyO : List Observer → List Nat × Option String
  | [] => ([], none)
  | o :: rest =>
    match o.result with
    | .error e => ([o.oid], some e)
    | .ok _ => ((notifyO rest).1.cons o.oid, (notifyO rest).2)

/-- A subscription-management call on the subject. -/
inductive SubOp where
  | attach (o : Observer)
  | detach (i : Nat)
deriving DecidableEq

/-- Applying one subscription-management call. -/
def applyOp (obs : List Observer) : SubOp → List Observer
  | .attach o => attachO obs o
  | .detach i => detachO obs i

/-- The observer array of a fresh subject after a sequence of
`attach`/`detach` calls. -/
def applyOps (ops : List SubOp) : List Observer :=
  ops.foldl applyOp []

/-! ## State pattern (`state.ts`) -/

/-- The two concrete states of the basic demo, `ConcreteStateA` and
`ConcreteStateB`, with the back-reference installed by `State.setContext`
(`none` = the freshly constructed state object, whose `context` field is
still unset). -/
structure CtxStateObj where
  isA : Bool
  ctxRef : Option Nat
deriving DecidableEq

/-- The basic `Context`: `ctxId` stands for the object's own reference. -/
structure ContextT where
  ctxId : Nat
  state : CtxStateObj
deriving DecidableEq

/-- `Context.transitionTo`: stores the incoming state object and calls
`state.setContext(this)` on it. -/
def transitionTo (c : ContextT) (s : CtxStateObj) : ContextT :=
  { c with state := { s with ctxRef := some c.ctxId } }

/-- The `Context` constructor: `constructor(state) { this.transitionTo(state) }`. -/
def mkContext (i : Nat) (s : CtxStateObj) : ContextT :=
  transitionTo { ctxId := i, state := s } s

/-- `Context.request1`: delegates to the current state's `handle1`;
`ConcreteStateA.handle1` transitions the context to a fresh
`ConcreteStateB`, `ConcreteStateB.handle1` only logs. -/
def request1 (c : ContextT) : ContextT :=
  if c.state.isA then transitionTo c { isA := false, ctxRef := none } else c

/-- `Context.request2`: `ConcreteStateB.handle2` transitions the context to
a fresh `ConcreteStateA`, `ConcreteStateA.handle2` only logs. -/
def request2 (c : ContextT) : ContextT :=
  if c.state.isA then c else transitionTo c { isA := true, ctxRef := none }

/-- A client request delegated through the basic context (`true` =
`request1`, `false` = `request2`). -/
def applyReq (c : ContextT) (b : Bool) : ContextT :=
  if b then request1 c else request2 c

/-- The three concrete `DocumentState` classes of the document demo. -/
inductive DocTag where
  | draft
  | moderation
  | published
deriving DecidableEq

/-- The three requests a `Document` delegates to its current state. -/
inductive DocTrigger where
  | publish
  | review
  | reject
deriving DecidableEq

/-- One `DocumentState` object: its class and the back-reference installed
by `DocumentState.setDocument` (`none` = freshly constructed, not yet
attached to a document). -/
structure DocStateObj where
  tag : DocTag
  docRef : Option Nat
deriving DecidableEq

/-- A `Document`: `docId` stands for the object's own reference. -/
structure DocumentT where
  docId : Nat
  name : String
  state : DocStateObj
deriving DecidableEq

/-- `Document.changeState`: stores the incoming state object and calls
`state.setDocument(this)` on it. -/
def changeState (d : DocumentT) (s : DocStateObj) : DocumentT :=
  { d with state := { s with docRef := some d.docId } }

/-- The `Document` constructor: sets a fresh `DraftState` and calls
`setDocument(this)` on it. -/
def mkDocument (i : Nat) (n : String) : DocumentT :=
  { docId := i, name := n, state := { tag := DocTag.draft, docRef := some i } }

/-- Dispatch of `Document.publish`/`review`/`reject` through the current
state object, exactly as the nine concrete handlers behave: handlers that
fire a transition call `changeState` with a freshly constructed state
object; the remaining handlers only log and return. -/
def docHandle (d : DocumentT) (t : DocTrigger) : DocumentT :=
  match d.state.tag, t with
  | DocTag.draft, DocTrigger.publish =>
    changeState d { tag := DocTag.moderation, docRef := none }
  | DocTag.moderation, DocTrigger.review =>
    changeState d { tag := DocTag.published, docRef := none }
  | DocTag.moderation, DocTrigger.reject =>
    changeState d { tag := DocTag.draft, docRef := none }
  | DocTag.published, DocTrigger.reject =>
    changeState d { tag := DocTag.draft, docRef := none }
  | _, _ => d

/-- The state reached by a `DocumentState` handler together with the
exception channel of the call.  None of the nine handlers throws — each
body only logs and possibly calls `changeState` — so the error component is
`none` on every branch; it is kept explicit to compare against the spec's
typed-error contract. -/
def docDispatch (s : DocTag) (t : DocTrigger) : DocTag × Option String :=
  ((docHandle { docId := 0, name := "", state := { tag := s, docRef := some 0 } } t).state.tag,
    none)

/-- The `(fromState, trigger)` pairs for which some handler actually fires a
transition (calls `changeState`), read off the nine handler bodies. -/
def hasRule : DocTag → DocTrigger → Bool
  | DocTag.draft, DocTrigger.publish => true
  | DocTag.moderation, DocTrigger.review => true
  | DocTag.moderation, DocTrigger.reject => true
  | DocTag.published, DocTrigger.reject => true
  | _, _ => false

/-! ## Mediator pattern (`src/unnamed/part_002`) -/

/-- A `ChatUser` as the `ChatRoom` sees it: its `name` and `uid`, the
latter standing for the object's reference. -/
structure ChatUserM where
  name : String
  uid : Nat
deriving DecidableEq

/-- The `ChatRoom.users` map: a JavaScript `Map` keyed by user name,
iterated in insertion order — an association list. -/
def ChatRoomUsers := List (String × Nat)

/-- `ChatRoom.register`: `if (!this.users.has(user.getName()))` — a user
whose name is already a key is ignored entirely; otherwise the pair is
inserted at the end. -/
def registerU (room : List (String × Nat)) (u : ChatUserM) : List (String × Nat) :=
  if room.any (fun p => p.1 = u.name) then room else room ++ [(u.name, u.uid)]

/-- `this.users.get(name)`, as used by `sendDirectMessage`: the object
registered under the name. -/
def lookupUser (room : List (String × Nat)) (n : String) : Option Nat :=
  (room.find? (fun p => p.1 = n)).map (fun p => p.2)

/-! ## Claims about the command pattern -/

/-- C1: on a non-empty history, `Invoker.undo` removes exactly the most
recently pushed (last) command, invokes that command's inverse action, and
the remaining history is the original one with only that top entry removed
(no other entry removed, reordered, or skipped). -/
theorem undo_pops_top (inv : Invoker) (c : Command)
    (h : inv.history.getLast? = some c) :
    undo inv =
      ({ inv with history := inv.history.dropLast }, some c, raised c.undoResult)
    ∧ inv.history.dropLast ++ [c] = inv.history := by
  have hne : inv.history ≠ [] := by
    intro he
    rw [he] at h
    exact Option.noConfusion h
  refine ⟨by unfold undo; rw [h], ?_⟩
  have hc : c = inv.history.getLast hne := by
    have h2 := List.getLast?_eq_getLast inv.history hne
    rw [h] at h2
    exact Option.some.inj h2
  rw [hc]
  exact List.dropLast_append_getLast hne

/-- Witness for C1 at a one-element history. -/
theorem undo_pops_top_witness :
    undo { onStart := none, onFinish := none,
           history := [⟨5, Except.ok (), Except.ok ()⟩] } =
      ({ onStart := none, onFinish := none,
         history := ([⟨5, Except.ok (), Except.ok ()⟩] : List Command).dropLast },
        some ⟨5, Except.ok (), Except.ok ()⟩, raised (Except.ok ()))
    ∧ ([⟨5, Except.ok (), Except.ok ()⟩] : List Command).dropLast
        ++ [⟨5, Except.ok (), Except.ok ()⟩]
        = [⟨5, Except.ok (), Except.ok ()⟩] :=
  undo_pops_top
    { onStart := none, onFinish := none,
      history := [⟨5, Except.ok (), Except.ok ()⟩] }
    ⟨5, Except.ok (), Except.ok ()⟩ rfl

/-- C2 counterexample: a forward action that throws `"boom"` propagates the
raw thrown value to the caller — not a typed `CommandFailed`, which the code
never constructs (the name appears nowhere in the source). -/
theorem failed_command_error_is_raw :
    doSomethingImportant
      { onStart := some ⟨0, Except.error "boom", Except.ok ()⟩,
        onFinish := none, history := [] } =
      ({ onStart := some ⟨0, Except.error "boom", Except.ok ()⟩,
         onFinish := none, history := [] }, some "boom")
    ∧ ("boom" : String) ≠ "CommandFailed" :=
  ⟨rfl, by decide⟩

/-- C2 amended: a command whose forward action throws is never pushed onto
the history — the push is skipped, the stack keeps exactly the contents it
had when the throw happened, and the raw thrown value (not a typed
`CommandFailed`) propagates to the caller.  The three cases cover a failing
`onStart`, a failing `onFinish` with no `onStart`, and a failing `onFinish`
after a successful `onStart` (whose own push survives). -/
theorem failed_command_not_pushed (inv : Invoker) (c : Command) (e : String)
    (hc : c.execResult = Except.error e) :
    (inv.onStart = some c → doSomethingImportant inv = (inv, some e))
    ∧ (inv.onStart = none → inv.onFinish = some c →
        doSomethingImportant inv = (inv, some e))
    ∧ (∀ c₀, inv.onStart = some c₀ → c₀.execResult = Except.ok () →
        inv.onFinish = some c →
        doSomethingImportant inv =
          ({ inv with history := inv.history ++ [c₀] }, some e)) := by
  refine ⟨?_, ?_, ?_⟩
  · intro hs
    simp [doSomethingImportant, applySlot, hs, hc]
  · intro hs hf
    simp [doSomethingImportant, applySlot, hs, hf, hc]
  · intro c₀ hs h₀ hf
    simp [doSomethingImportant, applySlot, hs, h₀, hf, hc]

/-- Witness for the amended C2: a failing `onStart` leaves the invoker
untouched and surfaces the raw error. -/
theorem failed_command_not_pushed_witness :
    doSomethingImportant
      { onStart := some ⟨1, Except.error "x", Except.ok ()⟩,
        onFinish := none, history := [⟨0, Except.ok (), Except.ok ()⟩] } =
      ({ onStart := some ⟨1, Except.error "x", Except.ok ()⟩,
         onFinish := none, history := [⟨0, Except.ok (), Except.ok ()⟩] },
        some "x") :=
  (failed_command_not_pushed
      { onStart := some ⟨1, Except.error "x", Except.ok ()⟩,
        onFinish := none, history := [⟨0, Except.ok (), Except.ok ()⟩] }
      ⟨1, Except.error "x", Except.ok ()⟩ "x" rfl).1 rfl

/-- C3 counterexample: `undo` on an empty history returns normally — no
inverse runs, no exception is thrown (the error channel is `none`, never a
typed `NothingToUndo`, which the code does not define) and the state is
unchanged.  The claimed failure does not happen. -/
theorem undo_empty_returns_normally :
    undo { onStart := none, onFinish := none, history := [] } =
      ({ onStart := none, onFinish := none, history := [] }, none, none) :=
  rfl

/-- C3 amended: `undo` on an invoker with an empty history only logs and
returns normally: no error of any kind is raised, no command's inverse is
invoked, and the whole invoker state is unchanged. -/
theorem undo_empty_noop (inv : Invoker) (h : inv.history = []) :
    undo inv = (inv, none, none) := by
  simp [undo, h]

/-- Witness for the amended C3. -/
theorem undo_empty_noop_witness :
    undo { onStart := some ⟨7, Except.ok (), Except.ok ()⟩,
           onFinish := none, history := [] } =
      ({ onStart := some ⟨7, Except.ok (), Except.ok ()⟩,
         onFinish := none, history := [] }, none, none) :=
  undo_empty_noop
    { onStart := some ⟨7, Except.ok (), Except.ok ()⟩,
      onFinish := none, history := [] } rfl

/-! ## Claims about the observer pattern -/

/-- When every registered observer's `update()` returns normally, `notify`
invokes exactly the registered observers, in array order, and returns
normally. -/
theorem notifyO_of_all_ok (l : List Observer)
    (h : ∀ p ∈ l, p.result = Except.ok ()) :
    notifyO l = (l.map (fun p => p.oid), none) := by
  induction l with
  | nil => rfl
  | cons p rest ih =>
    have hp : p.result = Except.ok () := h p (by simp)
    have hr := ih (fun q hq => h q (by simp [hq]))
    simp [notifyO, hp, hr]

/-- Every identity `notify` invokes belongs to the observer array it was
called on. -/
theorem mem_of_mem_notifyO (l : List Observer) (i : Nat)
    (h : i ∈ (notifyO l).1) : i ∈ l.map (fun p => p.oid) := by
  induction l with
  | nil => simp [notifyO] at h
  | cons p rest ih =>
    cases hp : p.result with
    | error e =>
      simp [notifyO, hp] at h
      simp [h]
    | ok u =>
      simp [notifyO, hp] at h
      rcases h with h | h
      · simp [h]
      · simp [ih h]

/-- Attaching an observer whose identity is not yet present appends it at
the end of the array. -/
theorem attachO_fresh (obs : List Observer) (o : Observer)
    (h : o.oid ∉ obs.map (fun p => p.oid)) :
    attachO obs o = obs ++ [o] := by
  have ha : obs.any (fun p => p.oid = o.oid) = false := by
    rw [List.any_eq_false]
    intro p hp
    simp only [decide_eq_true_eq]
    intro he
    exact h (by simpa [he] using List.mem_map_of_mem (fun p => p.oid) hp)
  simp [attachO, ha]

/-- C4 counterexample: with two attached observers whose `update()` bodies
are `throw "boom"` and a normal return, `notify` invokes only the first,
the thrown value propagates out of `notify` (it is not caught or recorded),
and the second — registered after the failing one — is never invoked. -/
theorem notify_aborts_on_listener_error :
    notifyO [⟨1, Except.error "boom"⟩, ⟨2, Except.ok ()⟩] = ([1], some "boom")
    ∧ (2 : Nat) ∉ ([1] : List Nat)
    ∧ (some "boom" : Option String) ≠ none :=
  ⟨rfl, by decide, by decide⟩

/-- C4 amended: `notify` has no `try`/`catch`; when a listener's handler
throws, every listener before it is invoked, the failing listener's handler
runs and its thrown value propagates raw out of `notify`, and no listener
registered after the failing one is invoked for that event. -/
theorem listener_error_propagates (pre post : List Observer) (o : Observer)
    (e : String)
    (hpre : ∀ p ∈ pre, p.result = Except.ok ())
    (ho : o.result = Except.error e) :
    notifyO (pre ++ o :: post) = (pre.map (fun p => p.oid) ++ [o.oid], some e) := by
  induction pre with
  | nil => simp [notifyO, ho]
  | cons p rest ih =>
    have hp : p.result = Except.ok () := hpre p (by simp)
    have hr := ih (fun q hq => hpre q (by simp [hq]))
    simp [notifyO, hp, hr]

/-- Witness for the amended C4. -/
theorem listener_error_propagates_witness :
    notifyO [⟨1, Except.ok ()⟩, ⟨2, Except.error "z"⟩, ⟨3, Except.ok ()⟩] =
      ([1, 2], some "z") :=
  listener_error_propagates [⟨1, Except.ok ()⟩] [⟨3, Except.ok ()⟩]
    ⟨2, Except.error "z"⟩ "z" (by decide) rfl

/-- C5: after any sequence of `attach`/`detach` calls, (i) when every
registered handler returns normally, `notify` invokes exactly the observers
registered at the time of the call, in array (= subscription) order, and
returns normally; (ii) an identity not registered at the time of the call
is never invoked for that event — in particular an observer attached only
after a `notify` was never invoked for that past event; (iii) a fresh
`attach` appends at the end, so array order is subscription order. -/
theorem publish_delivers_registered (ops : List SubOp) :
    ((∀ p ∈ applyOps ops, p.result = Except.ok ()) →
       notifyO (applyOps ops) = ((applyOps ops).map (fun p => p.oid), none))
    ∧ (∀ i : Nat, i ∉ (applyOps ops).map (fun p => p.oid) →
        i ∉ (notifyO (applyOps ops)).1)
    ∧ (∀ o : Observer, o.oid ∉ (applyOps ops).map (fun p => p.oid) →
        applyOps (ops ++ [SubOp.attach o]) = applyOps ops ++ [o]) := by
  refine ⟨notifyO_of_all_ok _, ?_, ?_⟩
  · intro i hi hmem
    exact hi (mem_of_mem_notifyO _ i hmem)
  · intro o ho
    have : applyOps (ops ++ [SubOp.attach o]) = applyOp (applyOps ops) (SubOp.attach o) := by
      simp [applyOps, List.foldl_append]
    rw [this]
    exact attachO_fresh _ o ho

/-- Witness for C5 with one attach, one detach of an absent identity, and a
successful publish. -/
theorem publish_delivers_registered_witness :
    notifyO (applyOps [SubOp.attach ⟨1, Except.ok ()⟩, SubOp.detach 9]) =
      ((applyOps [SubOp.attach ⟨1, Except.ok ()⟩, SubOp.detach 9]).map (fun p => p.oid),
        none) :=
  (publish_delivers_registered [SubOp.attach ⟨1, Except.ok ()⟩, SubOp.detach 9]).1
    (by decide)

/-- C6: attaching the same observer identity twice is a no-op — the
observer array after the second `attach` equals the array after the first —
and a subsequently published event invokes that observer exactly once, not
twice. -/
theorem duplicate_attach_noop (obs : List Observer) (o : Observer) :
    attachO (attachO obs o) o = attachO obs o
    ∧ (o.oid ∉ obs.map (fun p => p.oid) →
        (∀ p ∈ obs, p.result = Except.ok ()) →
        o.result = Except.ok () →
        (notifyO (attachO (attachO obs o) o)).1.count o.oid = 1) := by
  have hdup : attachO (attachO obs o) o = attachO obs o := by
    by_cases h : obs.any (fun p => p.oid = o.oid) = true
    · simp [attachO, h]
    · simp only [attachO, h, if_neg, Bool.not_eq_true]
      have : (obs ++ [o]).any (fun p => p.oid = o.oid) = true := by
        simp [List.any_append]
      simp [h, this]
  refine ⟨hdup, ?_⟩
  intro hfresh hobs ho
  rw [hdup, attachO_fresh obs o hfresh]
  have hall : ∀ p ∈ obs ++ [o], p.result = Except.ok () := by
    intro p hp
    rcases List.mem_append.mp hp with h | h
    · exact hobs p h
    · rw [List.mem_singleton.mp h]
      exact ho
  rw [notifyO_of_all_ok _ hall]
  simp only [List.map_append, List.map_cons, List.map_nil]
  rw [List.count_append]
  rw [List.count_eq_zero.mpr (by simpa using hfresh)]
  simp [List.count_cons]

/-- Witness for C6. -/
theorem duplicate_attach_noop_witness :
    attachO (attachO [⟨1, Except.ok ()⟩] ⟨2, Except.ok ()⟩) ⟨2, Except.ok ()⟩ =
      attachO [⟨1, Except.ok ()⟩] ⟨2, Except.ok ()⟩
    ∧ (notifyO (attachO (attachO [⟨1, Except.ok ()⟩] ⟨2, Except.ok ()⟩)
        ⟨2, Except.ok ()⟩)).1.count 2 = 1 :=
  ⟨(duplicate_attach_noop [⟨1, Except.ok ()⟩] ⟨2, Except.ok ()⟩).1,
    (duplicate_attach_noop [⟨1, Except.ok ()⟩] ⟨2, Except.ok ()⟩).2
      (by decide) (by decide) rfl⟩

/-! ## Claims about the state pattern -/

/-- C7 counterexample: `ModerationState.publish` — a `(currentState,
trigger)` pair with no transition rule — leaves the state unchanged but
returns normally: the call raises no error at all, in particular no typed
`InvalidTransition` (a name the code never defines). -/
theorem no_rule_trigger_returns_normally :
    docDispatch DocTag.moderation DocTrigger.publish = (DocTag.moderation, none)
    ∧ (docDispatch DocTag.moderation DocTrigger.publish).2 ≠ some "InvalidTransition" :=
  ⟨rfl, by decide⟩

/-- C7 amended: for every `(currentState, trigger)` pair for which no
handler fires a transition, the handler only logs and returns normally —
the current state after the call equals the state before it, and no error
is raised. -/
theorem no_rule_trigger_noop (s : DocTag) (t : DocTrigger)
    (h : hasRule s t = false) :
    docDispatch s t = (s, none) := by
  revert h
  cases s <;> cases t <;> decide

/-- Witness for the amended C7 at `(Published, review)`. -/
theorem no_rule_trigger_noop_witness :
    docDispatch DocTag.published DocTrigger.review = (DocTag.published, none) :=
  no_rule_trigger_noop DocTag.published DocTrigger.review rfl

/-! ## Claims about the mediator pattern -/

/-- C9 counterexample: registering a second user object under the name
`"Alice"` does not replace the first registration — the room still maps
`"Alice"` to the first object, and the second registration left no trace. -/
theorem register_does_not_replace :
    registerU (registerU [] ⟨"Alice", 1⟩) ⟨"Alice", 2⟩ = [("Alice", 1)]
    ∧ lookupUser (registerU (registerU [] ⟨"Alice", 1⟩) ⟨"Alice", 2⟩) "Alice" = some 1
    ∧ (some 1 : Option Nat) ≠ some 2 := by
  refine ⟨by decide, by decide, by decide⟩

/-- C9 amended: `ChatRoom.register` ignores a participant whose name is
already registered — the first registration wins and the room is left
completely unchanged; prior bindings are never replaced. -/
theorem register_existing_ignored (room : List (String × Nat)) (u : ChatUserM)
    (h : room.any (fun p => p.1 = u.name) = true) :
    registerU room u = room := by
  simp [registerU, h]

/-- Witness for the amended C9. -/
theorem register_existing_ignored_witness :
    registerU [("Alice", 1)] ⟨"Alice", 2⟩ = [("Alice", 1)] :=
  register_existing_ignored [("Alice", 1)] ⟨"Alice", 2⟩ (by decide)

/-! ## Claim about the state back-reference invariant -/

/-- `applyReq` never changes the context's own identity. -/
theorem applyReq_ctxId (c : ContextT) (b : Bool) :
    (applyReq c b).ctxId = c.ctxId := by
  cases b <;> simp [applyReq, request1, request2, transitionTo] <;> split <;> rfl

/-- After any request, the installed state object points back at its
context. -/
theorem applyReq_backref (c : ContextT) (b : Bool)
    (h : c.state.ctxRef = some c.ctxId) :
    (applyReq c b).state.ctxRef = some (applyReq c b).ctxId := by
  cases b <;> simp [applyReq, request1, request2, transitionTo] <;> split <;> simp [h]

/-- The context identity is constant along any request sequence. -/
theorem foldl_applyReq_ctxId (reqs : List Bool) (c : ContextT) :
    (reqs.foldl applyReq c).ctxId = c.ctxId := by
  induction reqs generalizing c with
  | nil => rfl
  | cons b rest ih => rw [List.foldl_cons, ih, applyReq_ctxId]

/-- The back-reference invariant is preserved along any request sequence. -/
theorem foldl_applyReq_backref (reqs : List Bool) (c : ContextT)
    (h : c.state.ctxRef = some c.ctxId) :
    (reqs.foldl applyReq c).state.ctxRef = some (reqs.foldl applyReq c).ctxId := by
  induction reqs generalizing c with
  | nil => exact h
  | cons b rest ih => exact ih _ (applyReq_backref c b h)

/-- `docHandle` never changes the document's own identity. -/
theorem docHandle_docId (d : DocumentT) (t : DocTrigger) :
    (docHandle d t).docId = d.docId := by
  unfold docHandle
  split <;> rfl

/-- After any dispatched request, the installed document state points back
at its document. -/
theorem docHandle_backref (d : DocumentT) (t : DocTrigger)
    (h : d.state.docRef = some d.docId) :
    (docHandle d t).state.docRef = some (docHandle d t).docId := by
  unfold docHandle
  split <;> simp [changeState, h]

/-- The document identity is constant along any trigger sequence. -/
theorem foldl_docHandle_docId (ts : List DocTrigger) (d : DocumentT) :
    (ts.foldl docHandle d).docId = d.docId := by
  induction ts generalizing d with
  | nil => rfl
  | cons t rest ih => rw [List.foldl_cons, ih, docHandle_docId]

/-- The back-reference invariant is preserved along any trigger sequence. -/
theorem foldl_docHandle_backref (ts : List DocTrigger) (d : DocumentT)
    (h : d.state.docRef = some d.docId) :
    (ts.foldl docHandle d).state.docRef = some (ts.foldl docHandle d).docId := by
  induction ts generalizing d with
  | nil => exact h
  | cons t rest ih => exact ih _ (docHandle_backref d t h)

/-- C10: after construction and after every state transition — both in the
basic `Context`/`State` demo and in the `Document`/`DocumentState` demo —
the object installed as the current state holds a back-reference to its
owning context/document (`transitionTo` and `changeState` call
`setContext(this)` / `setDocument(this)` on the incoming state object), so
every handler dispatched later can request further transitions through that
reference. -/
theorem state_backref_invariant (i : Nat) (s0 : CtxStateObj) (n : String)
    (reqs : List Bool) (ts : List DocTrigger) :
    (mkContext i s0).state.ctxRef = some i
    ∧ (reqs.foldl applyReq (mkContext i s0)).state.ctxRef = some i
    ∧ (mkDocument i n).state.docRef = some i
    ∧ (ts.foldl docHandle (mkDocument i n)).state.docRef = some i := by
  refine ⟨rfl, ?_, rfl, ?_⟩
  · have h := foldl_applyReq_backref reqs (mkContext i s0) rfl
    rwa [foldl_applyReq_ctxId] at h
  · have h := foldl_docHandle_backref ts (mkDocument i n) rfl
    rwa [foldl_docHandle_docId] at h
